import Mathlib

/-!
Verification development for the model-conversion script
`src/tools/convert_model.py` of silero-vad-rs.

The script is embedded as a deterministic state transformer over a `World`
(process-global gradient flag, filesystem, standard output, and an event
trace recording every framework call in order), parameterised by an `Env`
oracle supplying the outcomes of the external effects: the network fetch,
the framework's graph-export routine, and the random-normal draw used for
the dummy input tensor.
-/

namespace Silero

/-- Errors surfaced by the external framework and standard library calls. -/
inductive PyError
  | LoadError
  | NetworkError
  | ExportErr
  | FileExistsError
deriving DecidableEq, Repr

/-- Element types of the dummy tensors constructed by the script. -/
inductive DType
  | float32
  | int64
deriving DecidableEq, Repr

/-- How a dummy tensor's contents were produced: a fresh random-normal draw
(identified abstractly by the draw taken from the environment), an all-zeros
fill, or explicit integer data. -/
inductive TensorData
  | randnDraw (d : Nat)
  | allZeros
  | ints (vs : List Int)
deriving DecidableEq, Repr

/-- A tensor as passed to the export routine: shape, element type, contents. -/
structure Tensor where
  shape : List Nat
  dtype : DType
  data : TensorData
deriving DecidableEq, Repr

/-- The full argument record of one invocation of the framework's
graph-export routine (`torch.onnx.export`). -/
structure ExportCall where
  args : List Tensor
  output_path : String
  export_params : Bool
  opset_version : Nat
  do_constant_folding : Bool
  input_names : List String
  output_names : List String
  dynamic_axes : List (String × List (Nat × String))
deriving DecidableEq, Repr

/-- A loaded traced-graph model handle: an abstract identity plus whether
evaluation mode has been switched on. -/
structure Model where
  id : Nat
  evalMode : Bool
deriving DecidableEq, Repr

/-- Contents of a file on the modelled filesystem: a serialized traced-graph
model, an exported interchange-format graph, or an arbitrary byte blob. -/
inductive FileContent
  | jitModel (id : Nat)
  | onnxGraph (modelId : Nat) (call : ExportCall)
  | blob (b : Nat)
deriving DecidableEq, Repr

/-- Events recorded in chronological order: one per framework or library
call the script performs. -/
inductive Event
  | setGradEnabled (b : Bool)
  | jitLoad (path : String)
  | evalCall (modelId : Nat)
  | onnxExport (call : ExportCall)
  | makedirsCall (dir : String) (exist_ok : Bool)
  | urlretrieveCall (url : String) (path : String)
  | printLine (s : String)
deriving DecidableEq, Repr

/-- The observable process state threaded through the script. -/
structure World where
  gradEnabled : Bool
  dirs : List String
  files : List (String × FileContent)
  stdout : List String
  trace : List Event
deriving DecidableEq, Repr

/-- Outcomes of the external effects: what the network returns for a URL,
whether the framework's export succeeds on a given model and argument
record, and the random-normal draw of this run. -/
structure Env where
  net : String → Except PyError FileContent
  exportOutcome : Nat → ExportCall → Except PyError Unit
  draw : Nat

/-- Append one event to the trace. -/
def emit (e : Event) (w : World) : World :=
  { w with trace := w.trace ++ [e] }

/-- Look a path up on the modelled filesystem. -/
def lookupFile (path : String) (files : List (String × FileContent)) :
    Option FileContent :=
  (files.find? (fun p => p.1 == path)).map Prod.snd

/-- Write (or silently overwrite) a file at a path. -/
def setFile (path : String) (c : FileContent)
    (files : List (String × FileContent)) : List (String × FileContent) :=
  (path, c) :: files.filter (fun p => p.1 != path)

/-- `torch.set_grad_enabled`: flips the process-global gradient flag. -/
def set_grad_enabled (b : Bool) (w : World) : World :=
  emit (.setGradEnabled b) { w with gradEnabled := b }

/-- `torch.jit.load`: deserializes a traced graph from a path; fails with
`LoadError` when the path is missing or its contents are not a valid
serialized traced graph. -/
def jit_load (path : String) (w : World) : Except PyError Model × World :=
  let w := emit (.jitLoad path) w
  match lookupFile path w.files with
  | some (.jitModel i) => (.ok ⟨i, false⟩, w)
  | some _ => (.error .LoadError, w)
  | none => (.error .LoadError, w)

/-- `model.eval()`: switches the loaded graph to evaluation mode. -/
def Model.eval (m : Model) (w : World) : Model × World :=
  (⟨m.id, true⟩, emit (.evalCall m.id) w)

/-- `torch.onnx.export`: records the invocation, then either writes the
exported graph at the requested output path or fails with the framework's
error, as dictated by the environment. -/
def onnx_export (model : Model) (call : ExportCall) (env : Env)
    (w : World) : Except PyError Unit × World :=
  let w := emit (.onnxExport call) w
  match env.exportOutcome model.id call with
  | .ok _ =>
      (.ok (),
       { w with files := setFile call.output_path
                  (.onnxGraph model.id call) w.files })
  | .error e => (.error e, w)

/-- `os.makedirs(dir, exist_ok=ok)`: creates the directory; when it already
exists it succeeds iff `exist_ok` is set. -/
def makedirs (dir : String) (exist_ok : Bool) (w : World) :
    Except PyError Unit × World :=
  let w := emit (.makedirsCall dir exist_ok) w
  if dir ∈ w.dirs then
    if exist_ok then (.ok (), w) else (.error .FileExistsError, w)
  else
    (.ok (), { w with dirs := dir :: w.dirs })

/-- `urllib.request.urlretrieve`: fetches the URL and saves the response
body verbatim at the local path, or fails with the network error. -/
def urlretrieve (env : Env) (url : String) (path : String) (w : World) :
    Except PyError Unit × World :=
  let w := emit (.urlretrieveCall url path) w
  match env.net url with
  | .ok content => (.ok (), { w with files := setFile path content w.files })
  | .error e => (.error e, w)

/-- `print`: appends one line to standard output. -/
def printOut (s : String) (w : World) : World :=
  emit (.printLine s) { w with stdout := w.stdout ++ [s] }

/-- `init_jit_model` (src/tools/convert_model.py lines 5-9): disables
gradient tracking, deserializes the traced graph, switches it to
evaluation mode, and returns it. -/
def init_jit_model (model_path : String) (w : World) :
    Except PyError Model × World :=
  let w := set_grad_enabled false w
  match jit_load model_path w with
  | (.ok model, w) =>
      let (model, w) := model.eval w
      (.ok model, w)
  | (.error e, w) => (.error e, w)

/-- `convert_to_onnx` (src/tools/convert_model.py lines 11-37): loads the
model, builds the three dummy tensors, invokes the export routine with the
fixed argument record, and prints the completion line. -/
def convert_to_onnx (env : Env) (model_path output_path : String)
    (w : World) : Except PyError Unit × World :=
  match init_jit_model model_path w with
  | (.error e, w) => (.error e, w)
  | (.ok model, w) =>
    let dummy_input : Tensor := ⟨[1, 512], .float32, .randnDraw env.draw⟩
    let dummy_state : Tensor := ⟨[2, 1, 128], .float32, .allZeros⟩
    let dummy_sr : Tensor := ⟨[1], .int64, .ints [16000]⟩
    let call : ExportCall :=
      { args := [dummy_input, dummy_state, dummy_sr]
        output_path := output_path
        export_params := true
        opset_version := 16
        do_constant_folding := true
        input_names := ["input", "state", "sr"]
        output_names := ["output", "new_state"]
        dynamic_axes :=
          [("input", [(0, "batch_size"), (1, "sequence")]),
           ("state", [(1, "batch_size")]),
           ("output", [(0, "batch_size")]),
           ("new_state", [(1, "batch_size")])] }
    match onnx_export model call env w with
    | (.error e, w) => (.error e, w)
    | (.ok _, w) =>
        (.ok (), printOut ("Model converted and saved to " ++ output_path) w)

/-- The fixed download URL of the `__main__` block. -/
def jit_model_url : String :=
  "https://github.com/snakers4/silero-vad/raw/master/files/silero_vad.jit"

/-- The fixed local path the model is downloaded to. -/
def jit_model_path : String := "models/silero_vad.jit"

/-- The `__main__` block (src/tools/convert_model.py lines 39-53): create
`models/`, announce and perform the download, announce and perform the
conversion. No step is wrapped in any error handler. -/
def script_main (env : Env) (w : World) : Except PyError Unit × World :=
  match makedirs "models" true w with
  | (.error e, w) => (.error e, w)
  | (.ok _, w) =>
    let w := printOut "Downloading JIT model..." w
    match urlretrieve env jit_model_url jit_model_path w with
    | (.error e, w) => (.error e, w)
    | (.ok _, w) =>
      let w := printOut "Converting to ONNX..." w
      convert_to_onnx env jit_model_path "models/silero_vad.onnx" w

/-- The export calls occurring in a trace, in order. -/
def exportCalls (tr : List Event) : List ExportCall :=
  tr.filterMap (fun e => match e with
    | .onnxExport c => some c
    | _ => none)

/-- The deserialization events occurring in a trace, in order. -/
def loadEvents (tr : List Event) : List Event :=
  tr.filter (fun e => match e with
    | .jitLoad _ => true
    | _ => false)

/-- The download events occurring in a trace, in order. -/
def retrieveEvents (tr : List Event) : List Event :=
  tr.filter (fun e => match e with
    | .urlretrieveCall _ _ => true
    | _ => false)

/-- The exact argument record `convert_to_onnx` hands to the export
routine, as a function of the run's random draw and the output path. -/
def theCall (draw : Nat) (output_path : String) : ExportCall :=
  { args := [⟨[1, 512], .float32, .randnDraw draw⟩,
             ⟨[2, 1, 128], .float32, .allZeros⟩,
             ⟨[1], .int64, .ints [16000]⟩]
    output_path := output_path
    export_params := true
    opset_version := 16
    do_constant_folding := true
    input_names := ["input", "state", "sr"]
    output_names := ["output", "new_state"]
    dynamic_axes :=
      [("input", [(0, "batch_size"), (1, "sequence")]),
       ("state", [(1, "batch_size")]),
       ("output", [(0, "batch_size")]),
       ("new_state", [(1, "batch_size")])] }

/-- A world with one valid traced model on disk and nothing else. -/
def w0 : World :=
  { gradEnabled := true
    dirs := []
    files := [("m.jit", .jitModel 7)]
    stdout := []
    trace := [] }

/-- An environment where the download yields a valid traced model and the
export succeeds. -/
def envOk : Env :=
  { net := fun _ => .ok (.jitModel 7)
    exportOutcome := fun _ _ => .ok ()
    draw := 0 }

/-- An environment whose network fetch fails. -/
def envNetFail : Env :=
  { net := fun _ => .error .NetworkError
    exportOutcome := fun _ _ => .ok ()
    draw := 0 }

/-- An environment where the download yields a file that is not a valid
traced graph. -/
def envBadFile : Env :=
  { net := fun _ => .ok (.blob 3)
    exportOutcome := fun _ _ => .ok ()
    draw := 0 }

/-- An environment where the framework's export routine fails. -/
def envExportFail : Env :=
  { net := fun _ => .ok (.jitModel 7)
    exportOutcome := fun _ _ => .error .ExportErr
    draw := 0 }

/-- Characterisation of `init_jit_model` on a path holding a valid traced
model: the flag is cleared, the load and eval events follow in order, and
the evaluated handle is returned. -/
theorem init_ok (mp : String) (w : World) (i : Nat)
    (h : lookupFile mp w.files = some (FileContent.jitModel i)) :
    init_jit_model mp w =
      (Except.ok ⟨i, true⟩,
       { w with gradEnabled := false,
                trace := w.trace ++ [Event.setGradEnabled false,
                                     Event.jitLoad mp, Event.evalCall i] }) := by
  simp [init_jit_model, set_grad_enabled, jit_load, Model.eval, emit, h]

/-- Characterisation of `init_jit_model` on a missing path: `LoadError`,
with the gradient flag already cleared before the failed load. -/
theorem init_none (mp : String) (w : World)
    (h : lookupFile mp w.files = none) :
    init_jit_model mp w =
      (Except.error PyError.LoadError,
       { w with gradEnabled := false,
                trace := w.trace ++ [Event.setGradEnabled false,
                                     Event.jitLoad mp] }) := by
  simp [init_jit_model, set_grad_enabled, jit_load, emit, h]

/-- Characterisation of `init_jit_model` on a path holding a file that is
not a valid traced model: `LoadError` after clearing the flag. -/
theorem init_blob (mp : String) (w : World) (b : Nat)
    (h : lookupFile mp w.files = some (FileContent.blob b)) :
    init_jit_model mp w =
      (Except.error PyError.LoadError,
       { w with gradEnabled := false,
                trace := w.trace ++ [Event.setGradEnabled false,
                                     Event.jitLoad mp] }) := by
  simp [init_jit_model, set_grad_enabled, jit_load, emit, h]

/-- After a successful load, `convert_to_onnx` reduces to the export step
applied to the fixed argument record `theCall env.draw op`. -/
theorem convert_export_call (env : Env) (mp op : String) (w : World)
    (i : Nat) (h : lookupFile mp w.files = some (FileContent.jitModel i)) :
    convert_to_onnx env mp op w =
      (match onnx_export ⟨i, true⟩ (theCall env.draw op) env
          { w with gradEnabled := false,
                   trace := w.trace ++ [Event.setGradEnabled false,
                                        Event.jitLoad mp, Event.evalCall i] } with
       | (.error e, w2) => (.error e, w2)
       | (.ok _, w2) =>
           (.ok (), printOut ("Model converted and saved to " ++ op) w2)) := by
  rw [convert_to_onnx, init_ok mp w i h]
  simp only [theCall]

/-- Full characterisation of `convert_to_onnx` on a valid model file, split
on whether the framework's export succeeds. -/
theorem convert_valid_cases (env : Env) (mp op : String) (w : World)
    (i : Nat) (h : lookupFile mp w.files = some (FileContent.jitModel i)) :
    (env.exportOutcome i (theCall env.draw op) = Except.ok () →
      convert_to_onnx env mp op w =
        (Except.ok (),
         { gradEnabled := false
           dirs := w.dirs
           files := setFile op (.onnxGraph i (theCall env.draw op)) w.files
           stdout := w.stdout ++ ["Model converted and saved to " ++ op]
           trace := w.trace ++
             [Event.setGradEnabled false, Event.jitLoad mp, Event.evalCall i,
              Event.onnxExport (theCall env.draw op),
              Event.printLine ("Model converted and saved to " ++ op)] })) ∧
    (∀ e, env.exportOutcome i (theCall env.draw op) = Except.error e →
      convert_to_onnx env mp op w =
        (Except.error e,
         { gradEnabled := false
           dirs := w.dirs
           files := w.files
           stdout := w.stdout
           trace := w.trace ++
             [Event.setGradEnabled false, Event.jitLoad mp, Event.evalCall i,
              Event.onnxExport (theCall env.draw op)] })) := by
  rw [convert_export_call env mp op w i h]
  constructor
  · intro hx
    simp only [theCall] at hx
    simp [onnx_export, emit, hx, printOut, theCall]
  · intro e hx
    simp only [theCall] at hx
    simp [onnx_export, emit, hx, theCall]

/-- `os.makedirs` with `exist_ok=True` always succeeds: it creates the
directory when absent and is a no-op (beyond the event) when present. -/
theorem makedirs_ok (dir : String) (w : World) :
    makedirs dir true w =
      (Except.ok (),
       { gradEnabled := w.gradEnabled
         dirs := if dir ∈ w.dirs then w.dirs else dir :: w.dirs
         files := w.files
         stdout := w.stdout
         trace := w.trace ++ [Event.makedirsCall dir true] }) := by
  by_cases hd : dir ∈ w.dirs <;> simp [makedirs, emit, hd]

/-- `script_main` when the network fetch fails: the error propagates
unchanged, after exactly the directory event, the first status line, and
the single download attempt; the filesystem is untouched. -/
theorem main_net_err (env : Env) (w : World) (e : PyError)
    (h : env.net jit_model_url = Except.error e) :
    script_main env w =
      (Except.error e,
       { gradEnabled := w.gradEnabled
         dirs := if "models" ∈ w.dirs then w.dirs else "models" :: w.dirs
         files := w.files
         stdout := w.stdout ++ ["Downloading JIT model..."]
         trace := w.trace ++
           [Event.makedirsCall "models" true,
            Event.printLine "Downloading JIT model...",
            Event.urlretrieveCall jit_model_url jit_model_path] }) := by
  rw [script_main, makedirs_ok]
  simp [urlretrieve, printOut, emit, h]

/-- `script_main` when the download succeeds with content `c`: it reduces
to `convert_to_onnx` run on the world holding the downloaded file. -/
theorem main_net_ok (env : Env) (w : World) (c : FileContent)
    (h : env.net jit_model_url = Except.ok c) :
    script_main env w =
      convert_to_onnx env jit_model_path "models/silero_vad.onnx"
        { gradEnabled := w.gradEnabled
          dirs := if "models" ∈ w.dirs then w.dirs else "models" :: w.dirs
          files := setFile jit_model_path c w.files
          stdout := w.stdout ++ ["Downloading JIT model...",
                                 "Converting to ONNX..."]
          trace := w.trace ++
            [Event.makedirsCall "models" true,
             Event.printLine "Downloading JIT model...",
             Event.urlretrieveCall jit_model_url jit_model_path,
             Event.printLine "Converting to ONNX..."] } := by
  rw [script_main, makedirs_ok]
  simp [urlretrieve, printOut, emit, h]

/-- Looking up the path just written by `setFile` yields the new content. -/
theorem lookup_setFile_same (p : String) (c : FileContent)
    (fs : List (String × FileContent)) :
    lookupFile p (setFile p c fs) = some c := by
  simp [lookupFile, setFile]

/-- Characterisation of `init_jit_model` on a path holding an exported
graph (not a traced model): `LoadError` after clearing the flag. -/
theorem init_onnx (mp : String) (w : World) (m : Nat) (cl : ExportCall)
    (h : lookupFile mp w.files = some (FileContent.onnxGraph m cl)) :
    init_jit_model mp w =
      (Except.error PyError.LoadError,
       { w with gradEnabled := false,
                trace := w.trace ++ [Event.setGradEnabled false,
                                     Event.jitLoad mp] }) := by
  simp [init_jit_model, set_grad_enabled, jit_load, emit, h]

/-- On a loadable model file, the conversion's trace gains exactly one
export call, whose argument record is `theCall env.draw op`, whether or not
the framework's export succeeds. -/
theorem convert_emits_theCall (env : Env) (mp op : String) (w : World)
    (i : Nat) (h : lookupFile mp w.files = some (FileContent.jitModel i)) :
    exportCalls (convert_to_onnx env mp op w).2.trace
      = exportCalls w.trace ++ [theCall env.draw op] := by
  have hc := convert_valid_cases env mp op w i h
  cases hx : env.exportOutcome i (theCall env.draw op) with
  | ok u =>
      cases u
      rw [hc.1 hx]
      simp [exportCalls, List.filterMap_append]
  | error e =>
      rw [hc.2 e hx]
      simp [exportCalls, List.filterMap_append]

/-- C1: every run of `convert_to_onnx` on a loadable model file invokes the
framework's graph-export routine exactly once, with parameter export
enabled, opset version exactly 16, constant folding enabled, the named
input slots `input`, `state`, `sr` in that order, and the named output
slots `output`, `new_state` in that order. -/
theorem C1_export_configuration (env : Env) (mp op : String) (w : World)
    (i : Nat) (h : lookupFile mp w.files = some (FileContent.jitModel i)) :
    ∃ call : ExportCall,
      exportCalls (convert_to_onnx env mp op w).2.trace
        = exportCalls w.trace ++ [call] ∧
      call.export_params = true ∧
      call.opset_version = 16 ∧
      call.do_constant_folding = true ∧
      call.input_names = ["input", "state", "sr"] ∧
      call.output_names = ["output", "new_state"] := by
  exact ⟨theCall env.draw op, convert_emits_theCall env mp op w i h,
         rfl, rfl, rfl, rfl, rfl⟩

/-- Witness for C1 at a concrete valid-model world. -/
theorem C1_export_configuration_witness :
    ∃ call : ExportCall,
      exportCalls (convert_to_onnx envOk "m.jit" "m.onnx" w0).2.trace
        = exportCalls w0.trace ++ [call] ∧
      call.export_params = true ∧
      call.opset_version = 16 ∧
      call.do_constant_folding = true ∧
      call.input_names = ["input", "state", "sr"] ∧
      call.output_names = ["output", "new_state"] :=
  C1_export_configuration envOk "m.jit" "m.onnx" w0 7 rfl

/-- C4: calling the conversion with a nonexistent input model path fails
with `LoadError` during the load step; the filesystem — in particular any
file at the output path — is unchanged, and the export routine is never
invoked. -/
theorem C4_missing_input (env : Env) (mp op : String) (w : World)
    (h : lookupFile mp w.files = none) :
    (convert_to_onnx env mp op w).1 = Except.error PyError.LoadError ∧
    (convert_to_onnx env mp op w).2.files = w.files ∧
    exportCalls (convert_to_onnx env mp op w).2.trace
      = exportCalls w.trace := by
  rw [convert_to_onnx, init_none mp w h]
  exact ⟨rfl, rfl, by simp [exportCalls, List.filterMap_append]⟩

/-- Witness for C4: the conversion run on a world without the input file. -/
theorem C4_missing_input_witness :
    (convert_to_onnx envOk "missing.jit" "out.onnx" w0).1
      = Except.error PyError.LoadError ∧
    (convert_to_onnx envOk "missing.jit" "out.onnx" w0).2.files = w0.files ∧
    exportCalls (convert_to_onnx envOk "missing.jit" "out.onnx" w0).2.trace
      = exportCalls w0.trace :=
  C4_missing_input envOk "missing.jit" "out.onnx" w0 rfl

/-- C7: on a valid model file, `init_jit_model` performs, in order:
disable gradient tracking via the process-global flag, deserialize the
traced graph from the given path, switch it to evaluation mode; and it
returns that loaded evaluation-mode graph as the handle. -/
theorem C7_load_sequence (mp : String) (w : World) (i : Nat)
    (h : lookupFile mp w.files = some (FileContent.jitModel i)) :
    init_jit_model mp w =
      (Except.ok ⟨i, true⟩,
       { w with gradEnabled := false,
                trace := w.trace ++ [Event.setGradEnabled false,
                                     Event.jitLoad mp,
                                     Event.evalCall i] }) :=
  init_ok mp w i h

/-- Witness for C7 at a concrete valid-model world. -/
theorem C7_load_sequence_witness :
    init_jit_model "m.jit" w0 =
      (Except.ok ⟨7, true⟩,
       { w0 with gradEnabled := false,
                 trace := w0.trace ++ [Event.setGradEnabled false,
                                       Event.jitLoad "m.jit",
                                       Event.evalCall 7] }) :=
  C7_load_sequence "m.jit" w0 7 rfl

/-- C10: `init_jit_model` clears the process-global gradient flag before
attempting deserialization, so after any call — including one that fails
with `LoadError` because the path is missing — the flag is left disabled;
the failed load does not restore the prior global state. -/
theorem C10_grad_flag_persists (mp : String) (w : World) :
    (init_jit_model mp w).2.gradEnabled = false ∧
    (lookupFile mp w.files = none →
      init_jit_model mp w =
        (Except.error PyError.LoadError,
         { w with gradEnabled := false,
                  trace := w.trace ++ [Event.setGradEnabled false,
                                       Event.jitLoad mp] })) := by
  constructor
  · cases hl : lookupFile mp w.files with
    | none => rw [init_none mp w hl]
    | some c =>
      cases c with
      | jitModel i => rw [init_ok mp w i hl]
      | onnxGraph m cl => rw [init_onnx mp w m cl hl]
      | blob b => rw [init_blob mp w b hl]
  · exact fun hl => init_none mp w hl

/-- Witness for C10: a failing load on a missing path leaves the flag
disabled, starting from a world where it was enabled. -/
theorem C10_grad_flag_persists_witness :
    (init_jit_model "missing.jit" w0).2.gradEnabled = false ∧
    init_jit_model "missing.jit" w0 =
      (Except.error PyError.LoadError,
       { w0 with gradEnabled := false,
                 trace := w0.trace ++ [Event.setGradEnabled false,
                                       Event.jitLoad "missing.jit"] }) :=
  ⟨(C10_grad_flag_persists "missing.jit" w0).1,
   (C10_grad_flag_persists "missing.jit" w0).2 rfl⟩

/-- Counterexample to C2: in a concrete successful run, the dynamic-axes
declaration passed to the export routine names exactly the tensor slots
`input`, `state`, `output`, `new_state` — the input slot `sr` is not among
them, contradicting the claim that every named input slot carries a
variable batch axis. -/
theorem C2_counterexample :
    (exportCalls (convert_to_onnx envOk "m.jit" "m.onnx" w0).2.trace).map
        (fun c => c.dynamic_axes.map Prod.fst)
      = [["input", "state", "output", "new_state"]] ∧
    "sr" ∉ (["input", "state", "output", "new_state"] : List String) :=
  ⟨rfl, by decide⟩

/-- C2 (amended): in every export call, the dynamic-axes declaration marks
the batch dimension variable on `input` (axis 0), `state` (axis 1),
`output` (axis 0) and `new_state` (axis 1), plus the sequence dimension
(axis 1) on the primary input `input`; the input slot `sr` carries no
entry, and no other axis is declared variable. -/
theorem C2_dynamic_axes (env : Env) (mp op : String) (w : World) (i : Nat)
    (h : lookupFile mp w.files = some (FileContent.jitModel i)) :
    ∃ call : ExportCall,
      exportCalls (convert_to_onnx env mp op w).2.trace
        = exportCalls w.trace ++ [call] ∧
      call.dynamic_axes =
        [("input", [(0, "batch_size"), (1, "sequence")]),
         ("state", [(1, "batch_size")]),
         ("output", [(0, "batch_size")]),
         ("new_state", [(1, "batch_size")])] :=
  ⟨theCall env.draw op, convert_emits_theCall env mp op w i h, rfl⟩

/-- Witness for the amended C2 at a concrete valid-model world. -/
theorem C2_dynamic_axes_witness :
    ∃ call : ExportCall,
      exportCalls (convert_to_onnx envOk "m.jit" "m.onnx" w0).2.trace
        = exportCalls w0.trace ++ [call] ∧
      call.dynamic_axes =
        [("input", [(0, "batch_size"), (1, "sequence")]),
         ("state", [(1, "batch_size")]),
         ("output", [(0, "batch_size")]),
         ("new_state", [(1, "batch_size")])] :=
  C2_dynamic_axes envOk "m.jit" "m.onnx" w0 7 rfl

/-- Counterexample to C3: in a concrete run the three dummy tensors passed
to the export routine have shapes [1, 512], [2, 1, 128] and [1] — the
sample-rate dummy is a rank-one tensor of shape [1], not the rank-zero
scalar the claim asserts. -/
theorem C3_counterexample :
    (exportCalls (convert_to_onnx envOk "m.jit" "m.onnx" w0).2.trace).map
        (fun c => c.args.map Tensor.shape)
      = [[[1, 512], [2, 1, 128], [1]]] ∧
    ([1] : List Nat) ≠ ([] : List Nat) :=
  ⟨rfl, by decide⟩

/-- C3 (amended): every invocation of the conversion on a loadable model
constructs exactly three fresh dummy tensors to drive tracing — an input
frame buffer of shape [1, 512], a recurrent state buffer of shape
[2, 1, 128], and a one-element int64 sample-rate tensor of shape [1]
holding 16000 — passes exactly these as the example inputs of the export
call, and persists none of them: the filesystem after the run holds at most
the exported graph at the output path beyond the input world's files. -/
theorem C3_dummy_tensors (env : Env) (mp op : String) (w : World) (i : Nat)
    (h : lookupFile mp w.files = some (FileContent.jitModel i)) :
    (∃ call : ExportCall,
      exportCalls (convert_to_onnx env mp op w).2.trace
        = exportCalls w.trace ++ [call] ∧
      call.args = [⟨[1, 512], .float32, .randnDraw env.draw⟩,
                   ⟨[2, 1, 128], .float32, .allZeros⟩,
                   ⟨[1], .int64, .ints [16000]⟩]) ∧
    ((convert_to_onnx env mp op w).2.files = w.files ∨
     (convert_to_onnx env mp op w).2.files
       = setFile op (.onnxGraph i (theCall env.draw op)) w.files) := by
  refine ⟨⟨theCall env.draw op, convert_emits_theCall env mp op w i h, rfl⟩, ?_⟩
  have hc := convert_valid_cases env mp op w i h
  cases hx : env.exportOutcome i (theCall env.draw op) with
  | ok u =>
      cases u
      rw [hc.1 hx]
      exact Or.inr rfl
  | error e =>
      rw [hc.2 e hx]
      exact Or.inl rfl

/-- Witness for the amended C3 at a concrete valid-model world. -/
theorem C3_dummy_tensors_witness :
    (∃ call : ExportCall,
      exportCalls (convert_to_onnx envOk "m.jit" "m.onnx" w0).2.trace
        = exportCalls w0.trace ++ [call] ∧
      call.args = [⟨[1, 512], .float32, .randnDraw envOk.draw⟩,
                   ⟨[2, 1, 128], .float32, .allZeros⟩,
                   ⟨[1], .int64, .ints [16000]⟩]) ∧
    ((convert_to_onnx envOk "m.jit" "m.onnx" w0).2.files = w0.files ∨
     (convert_to_onnx envOk "m.jit" "m.onnx" w0).2.files
       = setFile "m.onnx"
           (.onnxGraph 7 (theCall envOk.draw "m.onnx")) w0.files) :=
  C3_dummy_tensors envOk "m.jit" "m.onnx" w0 7 rfl

/-- A second all-success environment whose random-normal draw differs. -/
def envOk1 : Env :=
  { net := fun _ => .ok (.jitModel 7)
    exportOutcome := fun _ _ => .ok ()
    draw := 1 }

/-- C9: the dummy input frame buffer records a fresh random-normal draw, so
two invocations with different draws pass different example inputs in the
first slot — only its shape [1, 512] is fixed — while the dummy state
buffer is all zeros and the sample-rate tensor is the constant 16000 in
both runs. -/
theorem C9_random_input_dummy (env1 env2 : Env) (mp op : String)
    (w : World) (i : Nat)
    (h : lookupFile mp w.files = some (FileContent.jitModel i))
    (hd : env1.draw ≠ env2.draw) :
    exportCalls (convert_to_onnx env1 mp op w).2.trace
      = exportCalls w.trace ++ [theCall env1.draw op] ∧
    exportCalls (convert_to_onnx env2 mp op w).2.trace
      = exportCalls w.trace ++ [theCall env2.draw op] ∧
    (theCall env1.draw op).args[0]? ≠ (theCall env2.draw op).args[0]? ∧
    (theCall env1.draw op).args[0]?
      = some ⟨[1, 512], .float32, .randnDraw env1.draw⟩ ∧
    (theCall env1.draw op).args[1]? = (theCall env2.draw op).args[1]? ∧
    (theCall env1.draw op).args[1]?
      = some ⟨[2, 1, 128], .float32, .allZeros⟩ ∧
    (theCall env1.draw op).args[2]? = (theCall env2.draw op).args[2]? ∧
    (theCall env1.draw op).args[2]?
      = some ⟨[1], .int64, .ints [16000]⟩ := by
  refine ⟨convert_emits_theCall env1 mp op w i h,
          convert_emits_theCall env2 mp op w i h,
          ?_, rfl, rfl, rfl, rfl, rfl⟩
  simpa [theCall] using hd

/-- Witness for C9: two all-success runs whose draws are 0 and 1. -/
theorem C9_random_input_dummy_witness :
    exportCalls (convert_to_onnx envOk "m.jit" "m.onnx" w0).2.trace
      = exportCalls w0.trace ++ [theCall envOk.draw "m.onnx"] ∧
    exportCalls (convert_to_onnx envOk1 "m.jit" "m.onnx" w0).2.trace
      = exportCalls w0.trace ++ [theCall envOk1.draw "m.onnx"] ∧
    (theCall envOk.draw "m.onnx").args[0]?
      ≠ (theCall envOk1.draw "m.onnx").args[0]? ∧
    (theCall envOk.draw "m.onnx").args[0]?
      = some ⟨[1, 512], .float32, .randnDraw envOk.draw⟩ ∧
    (theCall envOk.draw "m.onnx").args[1]?
      = (theCall envOk1.draw "m.onnx").args[1]? ∧
    (theCall envOk.draw "m.onnx").args[1]?
      = some ⟨[2, 1, 128], .float32, .allZeros⟩ ∧
    (theCall envOk.draw "m.onnx").args[2]?
      = (theCall envOk1.draw "m.onnx").args[2]? ∧
    (theCall envOk.draw "m.onnx").args[2]?
      = some ⟨[1], .int64, .ints [16000]⟩ :=
  C9_random_input_dummy envOk envOk1 "m.jit" "m.onnx" w0 7 rfl (by decide)

/-- C6: no error raised at the download, load, or export step is caught or
recovered anywhere in the program: in each failure case the underlying
framework's native error propagates unchanged as the script's result, the
run stops at the failing step (the export routine is not reached after an
earlier failure, and the single download is never retried), and no file is
removed or remediated afterwards. -/
theorem C6_error_propagation (env : Env) (w : World) (e : PyError)
    (b : Nat) (i : Nat) :
    (env.net jit_model_url = Except.error e →
      (script_main env w).1 = Except.error e ∧
      (script_main env w).2.files = w.files ∧
      loadEvents (script_main env w).2.trace = loadEvents w.trace ∧
      exportCalls (script_main env w).2.trace = exportCalls w.trace ∧
      (retrieveEvents (script_main env w).2.trace).length
        = (retrieveEvents w.trace).length + 1) ∧
    (env.net jit_model_url = Except.ok (FileContent.blob b) →
      (script_main env w).1 = Except.error PyError.LoadError ∧
      (script_main env w).2.files
        = setFile jit_model_path (FileContent.blob b) w.files ∧
      exportCalls (script_main env w).2.trace = exportCalls w.trace ∧
      (retrieveEvents (script_main env w).2.trace).length
        = (retrieveEvents w.trace).length + 1) ∧
    (env.net jit_model_url = Except.ok (FileContent.jitModel i) →
      env.exportOutcome i (theCall env.draw "models/silero_vad.onnx")
          = Except.error e →
      (script_main env w).1 = Except.error e ∧
      (script_main env w).2.files
        = setFile jit_model_path (FileContent.jitModel i) w.files ∧
      exportCalls (script_main env w).2.trace
        = exportCalls w.trace ++ [theCall env.draw "models/silero_vad.onnx"] ∧
      (retrieveEvents (script_main env w).2.trace).length
        = (retrieveEvents w.trace).length + 1) := by
  refine ⟨fun hnet => ?_, fun hnet => ?_, fun hnet hexp => ?_⟩
  · rw [main_net_err env w e hnet]
    refine ⟨rfl, rfl, ?_, ?_, ?_⟩ <;>
      simp [loadEvents, exportCalls, retrieveEvents, List.filter_append,
            List.filterMap_append]
  · rw [main_net_ok env w _ hnet]
    rw [convert_to_onnx,
        init_blob jit_model_path _ b (lookup_setFile_same _ _ _)]
    refine ⟨rfl, rfl, ?_, ?_⟩ <;>
      simp [loadEvents, exportCalls, retrieveEvents, List.filter_append,
            List.filterMap_append]
  · rw [main_net_ok env w _ hnet]
    rw [(convert_valid_cases env jit_model_path "models/silero_vad.onnx"
          { gradEnabled := w.gradEnabled
            dirs := if "models" ∈ w.dirs then w.dirs else "models" :: w.dirs
            files := setFile jit_model_path (FileContent.jitModel i) w.files
            stdout := w.stdout ++ ["Downloading JIT model...",
                                   "Converting to ONNX..."]
            trace := w.trace ++
              [Event.makedirsCall "models" true,
               Event.printLine "Downloading JIT model...",
               Event.urlretrieveCall jit_model_url jit_model_path,
               Event.printLine "Converting to ONNX..."] } i
          (lookup_setFile_same _ _ _)).2 e hexp]
    refine ⟨rfl, rfl, ?_, ?_⟩ <;>
      simp [loadEvents, exportCalls, retrieveEvents, List.filter_append,
            List.filterMap_append]

/-- Witness for C6: the download-failure case at a concrete environment. -/
theorem C6_error_propagation_witness :
    (script_main envNetFail w0).1 = Except.error PyError.NetworkError ∧
    (script_main envNetFail w0).2.files = w0.files ∧
    loadEvents (script_main envNetFail w0).2.trace = loadEvents w0.trace ∧
    exportCalls (script_main envNetFail w0).2.trace = exportCalls w0.trace ∧
    (retrieveEvents (script_main envNetFail w0).2.trace).length
      = (retrieveEvents w0.trace).length + 1 :=
  (C6_error_propagation envNetFail w0 PyError.NetworkError 0 0).1 rfl

/-- Counterexample to C8: a run of the script in which every external step
succeeds writes three lines to standard output, not two. -/
theorem C8_counterexample :
    ((script_main envOk w0).2.stdout).length = 3 ∧ (3 : Nat) ≠ 2 :=
  ⟨rfl, by decide⟩

/-- C8 (amended): when every external step succeeds, running the script
with no arguments performs, in order: create the `models/` directory if
absent (succeeding without error when it already exists), print the
download status line, download the model from the fixed URL, print the
conversion status line, load the model, export it, and print the
completion line — exactly three status lines on standard output in total
(two from the top-level block and one from the conversion routine). -/
theorem C8_script_run (env : Env) (w : World) (i : Nat)
    (hnet : env.net jit_model_url = Except.ok (FileContent.jitModel i))
    (hexp : env.exportOutcome i (theCall env.draw "models/silero_vad.onnx")
        = Except.ok ()) :
    (script_main env w).1 = Except.ok () ∧
    (script_main env w).2.dirs
      = (if "models" ∈ w.dirs then w.dirs else "models" :: w.dirs) ∧
    (script_main env w).2.stdout
      = w.stdout ++ ["Downloading JIT model...", "Converting to ONNX...",
                     "Model converted and saved to models/silero_vad.onnx"] ∧
    (script_main env w).2.trace
      = w.trace ++
        [Event.makedirsCall "models" true,
         Event.printLine "Downloading JIT model...",
         Event.urlretrieveCall jit_model_url jit_model_path,
         Event.printLine "Converting to ONNX...",
         Event.setGradEnabled false,
         Event.jitLoad jit_model_path,
         Event.evalCall i,
         Event.onnxExport (theCall env.draw "models/silero_vad.onnx"),
         Event.printLine
           "Model converted and saved to models/silero_vad.onnx"] := by
  rw [main_net_ok env w _ hnet]
  rw [(convert_valid_cases env jit_model_path "models/silero_vad.onnx"
        { gradEnabled := w.gradEnabled
          dirs := if "models" ∈ w.dirs then w.dirs else "models" :: w.dirs
          files := setFile jit_model_path (FileContent.jitModel i) w.files
          stdout := w.stdout ++ ["Downloading JIT model...",
                                 "Converting to ONNX..."]
          trace := w.trace ++
            [Event.makedirsCall "models" true,
             Event.printLine "Downloading JIT model...",
             Event.urlretrieveCall jit_model_url jit_model_path,
             Event.printLine "Converting to ONNX..."] } i
        (lookup_setFile_same _ _ _)).1 hexp]
  refine ⟨rfl, rfl, ?_, ?_⟩ <;> simp [List.append_assoc]

/-- Witness for the amended C8: an all-success run from the base world. -/
theorem C8_script_run_witness :
    (script_main envOk w0).1 = Except.ok () ∧
    (script_main envOk w0).2.dirs
      = (if "models" ∈ w0.dirs then w0.dirs else "models" :: w0.dirs) ∧
    (script_main envOk w0).2.stdout
      = w0.stdout ++ ["Downloading JIT model...", "Converting to ONNX...",
                      "Model converted and saved to models/silero_vad.onnx"] ∧
    (script_main envOk w0).2.trace
      = w0.trace ++
        [Event.makedirsCall "models" true,
         Event.printLine "Downloading JIT model...",
         Event.urlretrieveCall jit_model_url jit_model_path,
         Event.printLine "Converting to ONNX...",
         Event.setGradEnabled false,
         Event.jitLoad jit_model_path,
         Event.evalCall 7,
         Event.onnxExport (theCall envOk.draw "models/silero_vad.onnx"),
         Event.printLine
           "Model converted and saved to models/silero_vad.onnx"] :=
  C8_script_run envOk w0 7 rfl rfl

end Silero
